import Mathlib

/-!
Verification development for the `react-native-nitro-audio-manager`
repository.  The definitions below are a shallow embedding of the
library's iOS native module (`AudioManager` in Swift) and of the
TypeScript wrapper layer: the session-configuration validator with its
category / mode / category-option compatibility checks, the
three-channel listener registry, the activate / deactivate entry points
and the JS-side volume clamping.  Native OS calls are recorded in a
trace and their success or failure, together with OS-version
availability, is supplied by an explicit environment.
-/

namespace AudioMgr

/-- iOS audio-session categories (`AVAudioSession.Category`). -/
inductive AVCategory
  | ambient
  | soloAmbient
  | playback
  | record
  | playAndRecord
  | multiRoute
deriving DecidableEq, Repr, Fintype

/-- iOS audio-session modes (`AVAudioSession.Mode`), restricted to the
values the native mode switch can produce. -/
inductive AVMode
  | default
  | voiceChat
  | videoChat
  | gameChat
  | videoRecording
  | measurement
  | moviePlayback
  | spokenAudio
deriving DecidableEq, Repr, Fintype

/-- iOS route-sharing policies (`AVAudioSession.RouteSharingPolicy`). -/
inductive AVPolicy
  | default
  | longFormAudio
  | longFormVideo
  | independent
deriving DecidableEq, Repr, Fintype

/-- iOS category options (`AVAudioSession.CategoryOptions` flags). -/
inductive AVOption
  | mixWithOthers
  | allowBluetoothHFP
  | allowBluetoothA2DP
  | allowAirPlay
  | duckOthers
  | defaultToSpeaker
  | interruptSpokenAudioAndMixWithOthers
  | overrideMutedMicrophoneInterruption
deriving DecidableEq, Repr, Fintype

/-- A structured error thrown by the native layer
(`AudioSessionError.error(name:message:)`). -/
structure ConfigError where
  name : String
  message : String
deriving DecidableEq, Repr

/-- A soft warning delivered through the warning callback
(`AudioSessionWarning`). -/
structure Warning where
  name : String
  message : String
deriving DecidableEq, Repr

/-- A native OS call issued by the module, recorded for the trace. -/
inductive NativeCall
  | setCategory (category : AVCategory) (mode : AVMode) (policy : AVPolicy)
      (options : List AVOption)
  | setPrefersNoInterruptions (value : Bool)
  | setAllowHaptics (value : Bool)
  | setPrefersInterruptionOnRouteDisconnect (value : Bool)
  | setPrefersEchoCancelledInput (value : Bool)
  | setActive (active : Bool) (notifyOthersOnDeactivation : Bool)
deriving DecidableEq, Repr

/-- The OS environment: which iOS-version availability checks pass and
which native calls succeed.  The Swift code branches on exactly these
facts. -/
structure OSEnv where
  ios16 : Bool
  ios17 : Bool
  ios182 : Bool
  echoAvailable : Bool
  setCategoryOk : Bool
  setNoInterruptionsOk : Bool
  setHapticsOk : Bool
  setRouteDisconnectOk : Bool
  setEchoOk : Bool
  setActiveOk : Bool
deriving DecidableEq, Repr

/-- An environment in which every availability check and native call
succeeds. -/
def envAllOk : OSEnv :=
  { ios16 := true, ios17 := true, ios182 := true, echoAvailable := true
    setCategoryOk := true, setNoInterruptionsOk := true, setHapticsOk := true
    setRouteDisconnectOk := true, setEchoOk := true, setActiveOk := true }

/-- Category parsing: the first switch of `configureAudioSession` in
`AudioManager.swift`. -/
def parseCategory (categoryName : String) : Except ConfigError AVCategory :=
  match categoryName with
  | "Ambient" => .ok .ambient
  | "SoloAmbient" => .ok .soloAmbient
  | "Playback" => .ok .playback
  | "Record" => .ok .record
  | "PlayAndRecord" => .ok .playAndRecord
  | "MultiRoute" => .ok .multiRoute
  | _ => .error ⟨"INVALID_CATEGORY", "Unknown category: " ++ categoryName⟩

/-- Mode parsing: the second switch of `configureAudioSession`.  Note
that the switch has no case for the token "VoicePrompt". -/
def parseMode (modeName : String) : Except ConfigError AVMode :=
  match modeName with
  | "Default" => .ok .default
  | "VoiceChat" => .ok .voiceChat
  | "VideoChat" => .ok .videoChat
  | "GameChat" => .ok .gameChat
  | "VideoRecording" => .ok .videoRecording
  | "Measurement" => .ok .measurement
  | "MoviePlayback" => .ok .moviePlayback
  | "SpokenAudio" => .ok .spokenAudio
  | _ => .error ⟨"INVALID_MODE", "Unknown mode: " ++ modeName⟩

/-- Policy parsing: total, unknown tokens fall back to `.default`. -/
def parsePolicy (policyName : String) : AVPolicy :=
  match policyName with
  | "LongFormAudio" => .longFormAudio
  | "LongFormVideo" => .longFormVideo
  | "Independent" => .independent
  | _ => .default

/-- `OptionSet.insert`: add a flag if it is not already present. -/
def insertOpt (o : AVOption) (l : List AVOption) : List AVOption :=
  if o ∈ l then l else l ++ [o]

/-- One iteration of the option-validation loop of
`configureAudioSession`: given the resolved category and the iOS-16
availability fact, process one requested option token, either throwing
a structured error or returning the updated option set together with
any warnings emitted for this token. -/
def processOption (category : AVCategory) (categoryName : String) (ios16 : Bool)
    (opts : List AVOption) (optionName : String) :
    Except ConfigError (List AVOption × List Warning) :=
  match optionName with
  | "MixWithOthers" =>
    if category = .playAndRecord ∨ category = .playback ∨ category = .multiRoute
        ∨ category = .ambient then
      .ok (insertOpt .mixWithOthers opts, [])
    else
      .error ⟨"UNSUPPORTED_CATEGORY_OPTION",
        "MixWithOthers is not supported for category " ++ categoryName⟩
  | "AllowBluetooth" =>
    if category = .playAndRecord ∨ category = .record then
      .ok (insertOpt .allowBluetoothHFP opts, [])
    else
      .error ⟨"UNSUPPORTED_CATEGORY_OPTION",
        "AllowBluetooth is not supported for category " ++ categoryName⟩
  | "AllowBluetoothA2DP" =>
    if category = .playAndRecord then
      .ok (insertOpt .allowBluetoothA2DP opts, [])
    else if category = .playback ∨ category = .soloAmbient ∨ category = .ambient then
      .ok (opts,
        [⟨"OPTION_NOT_APPLIED",
          "AllowBluetoothA2DP is applied by default for category " ++ categoryName ++ "."⟩])
    else
      .error ⟨"UNSUPPORTED_CATEGORY_OPTION",
        "AllowBluetoothA2DP is not supported for category " ++ categoryName⟩
  | "AllowAirPlay" =>
    if category = .playAndRecord then
      .ok (insertOpt .allowAirPlay opts, [])
    else
      .error ⟨"UNSUPPORTED_CATEGORY_OPTION",
        "AllowAirPlay is not supported for category " ++ categoryName⟩
  | "DuckOthers" =>
    if category = .playAndRecord ∨ category = .playback ∨ category = .multiRoute then
      .ok (insertOpt .duckOthers opts, [])
    else
      .error ⟨"UNSUPPORTED_CATEGORY_OPTION",
        "DuckOthers is not supported for category " ++ categoryName⟩
  | "DefaultToSpeaker" =>
    if category = .playAndRecord then
      .ok (insertOpt .defaultToSpeaker opts, [])
    else
      .error ⟨"UNSUPPORTED_CATEGORY_OPTION",
        "DefaultToSpeaker is not supported for category " ++ categoryName⟩
  | "InterruptSpokenAudioAndMixWithOthers" =>
    if category = .playAndRecord ∨ category = .playback ∨ category = .multiRoute then
      .ok (insertOpt .interruptSpokenAudioAndMixWithOthers opts, [])
    else
      .error ⟨"UNSUPPORTED_CATEGORY_OPTION",
        "InterruptSpokenAudioAndMixWithOthers is not supported for category " ++ categoryName⟩
  | "OverrideMutedMicrophoneInterruption" =>
    if ios16 ∧ (category = .playAndRecord ∨ category = .record) then
      .ok (insertOpt .overrideMutedMicrophoneInterruption opts, [])
    else
      .error ⟨"UNSUPPORTED_CATEGORY_OPTION",
        "OverrideMutedMicrophoneInterruption requires iOS 16.0+ and category PlayAndRecord or Record."⟩
  | _ =>
    .error ⟨"INVALID_CATEGORY_OPTION", "Unknown category option: " ++ optionName⟩

/-- The option-validation loop: fold `processOption` over the requested
tokens, accumulating the resolved option set and the warnings emitted
so far.  A thrown error aborts the loop immediately (Swift `throw`
inside `for`), returning the warnings already delivered. -/
def validateOptions (category : AVCategory) (categoryName : String) (ios16 : Bool) :
    List String → List AVOption → List Warning →
    List Warning × Except ConfigError (List AVOption)
  | [], opts, warns => (warns, .ok opts)
  | optionName :: rest, opts, warns =>
    match processOption category categoryName ios16 opts optionName with
    | .error e => (warns, .error e)
    | .ok (opts', ws) => validateOptions category categoryName ios16 rest opts' (warns ++ ws)

/-- The four boolean preference flags passed to `configureAudioSession`. -/
structure PrefFlags where
  prefersNoInterruptionFromSystemAlerts : Bool
  prefersInterruptionOnRouteDisconnect : Bool
  allowHapticsAndSystemSoundsDuringRecording : Bool
  prefersEchoCancelledInput : Bool
deriving DecidableEq, Repr

/-- Emit a warning when a best-effort native call failed. -/
def warnUnless (ok : Bool) (w : Warning) : List Warning :=
  if ok then [] else [w]

/-- The auxiliary-preference phase of `configureAudioSession`,
performed after a successful `setCategory`: each preference is applied
as an independent best-effort native call whose failure (or lack of
OS-version availability) is downgraded to a warning. -/
def applyPreferences (category : AVCategory) (mode : Option AVMode)
    (categoryName modeName : String) (f : PrefFlags) (env : OSEnv) :
    List NativeCall × List Warning :=
  let c1 : List NativeCall :=
    [.setPrefersNoInterruptions f.prefersNoInterruptionFromSystemAlerts]
  let w1 := warnUnless env.setNoInterruptionsOk
    ⟨"PREFERENCE_FAILURE_NO_INTERRUPTIONS",
      "Failed to set prefersNoInterruptionsFromSystemAlerts"⟩
  let c2 : List NativeCall :=
    [.setAllowHaptics f.allowHapticsAndSystemSoundsDuringRecording]
  let w2 := warnUnless env.setHapticsOk
    ⟨"PREFERENCE_FAILURE_HAPTICS",
      "Failed to set allowHapticsAndSystemSoundsDuringRecording"⟩
  let c3 : List NativeCall :=
    if env.ios17 then
      [.setPrefersInterruptionOnRouteDisconnect f.prefersInterruptionOnRouteDisconnect]
    else []
  let w3 :=
    if env.ios17 then
      warnUnless env.setRouteDisconnectOk
        ⟨"PREFERENCE_FAILURE_ROUTE_DISCONNECT",
          "Failed to set prefersInterruptionOnRouteDisconnect"⟩
    else
      [⟨"PREFERENCE_FAILURE_ROUTE_DISCONNECT",
        "Setting prefersInterruptionOnRouteDisconnect requires iOS 17 or later"⟩]
  let c4 : List NativeCall :=
    if f.prefersEchoCancelledInput ∧ env.ios182 ∧ category = .playAndRecord
        ∧ mode = some .default ∧ env.echoAvailable then
      [.setPrefersEchoCancelledInput f.prefersEchoCancelledInput]
    else []
  let w4 : List Warning :=
    if f.prefersEchoCancelledInput then
      if env.ios182 then
        if category ≠ .playAndRecord then
          [⟨"PREFERENCE_WARNING_ECHO_CANCELLATION",
            "Setting prefersEchoCancelledInput requires category PlayAndRecord, but found "
              ++ categoryName⟩]
        else if mode ≠ some .default then
          [⟨"PREFERENCE_WARNING_ECHO_CANCELLATION",
            "Setting prefersEchoCancelledInput requires mode Default, but found " ++ modeName⟩]
        else if ¬env.echoAvailable then
          [⟨"PREFERENCE_WARNING_ECHO_CANCELLATION",
            "Setting prefersEchoCancelledInput requires hardware support for echo cancellation, which is not available on this device"⟩]
        else
          warnUnless env.setEchoOk
            ⟨"PREFERENCE_WARNING_ECHO_CANCELLATION",
              "Failed to set prefersEchoCancelledInput"⟩
      else
        [⟨"PREFERENCE_WARNING_ECHO_CANCELLATION",
          "Setting prefersEchoCancelledInput requires iOS 18.2 or later"⟩]
    else []
  (c1 ++ c2 ++ c3 ++ c4, w1 ++ w2 ++ w3 ++ w4)

deriving instance DecidableEq for Except

/-- The outcome of a `configureAudioSession` call: the trace of native
calls attempted, the warnings delivered through the warning callback,
and the result (success or structured error). -/
structure ConfigRun where
  nativeCalls : List NativeCall
  warnings : List Warning
  result : Except ConfigError Unit
deriving DecidableEq, Repr

/-- The native `setCategory` call issued after validation, reproducing
the `if let mode` / `options.isEmpty` branching of the Swift source. -/
def setCategoryCall (category : AVCategory) (mode : Option AVMode)
    (policy : AVPolicy) (options : List AVOption) : NativeCall :=
  match mode with
  | some m =>
    if options.isEmpty then .setCategory category m policy []
    else .setCategory category m policy options
  | none =>
    if options.isEmpty then .setCategory category .default policy []
    else .setCategory category .default policy options

/-- Shallow embedding of `configureAudioSession` from
`AudioManager.swift`: parse category, mode and policy; validate each
requested category option against the per-category rules (fail-fast);
issue the single native `setCategory` call; then apply the four
auxiliary preferences as best-effort calls that can only add
warnings. -/
def configureAudioSession (categoryName modeName policyName : String)
    (optionsArray : List String) (f : PrefFlags) (env : OSEnv) : ConfigRun :=
  match parseCategory categoryName with
  | .error e => ⟨[], [], .error e⟩
  | .ok category =>
    match parseMode modeName with
    | .error e => ⟨[], [], .error e⟩
    | .ok m =>
      let mode : Option AVMode := some m
      let policy := parsePolicy policyName
      match validateOptions category categoryName env.ios16 optionsArray [] [] with
      | (warns, .error e) => ⟨[], warns, .error e⟩
      | (warns, .ok options) =>
        let catCall := setCategoryCall category mode policy options
        if env.setCategoryOk then
          let (pcalls, pwarns) := applyPreferences category mode categoryName modeName f env
          ⟨catCall :: pcalls, warns ++ pwarns, .ok ()⟩
        else
          ⟨[catCall], warns,
            .error ⟨"INVALID_CONFIGURATION", "Failed to set category"⟩⟩

/-- A registered listener: the numeric id handed back to the caller and
an abstract tag standing for the caller-supplied callback closure. -/
structure Listener where
  id : Nat
  tag : Nat
deriving DecidableEq, Repr

/-- The mutable state of the iOS `AudioManager` instance: the three
listener registries, the shared id counter, the session-active flag,
whether the KVO volume observation is installed, and whether the
NotificationCenter observers (interruption, route change, lifecycle)
are registered. -/
structure MgrState where
  interruptionListeners : List Listener
  routeChangeListeners : List Listener
  volumeListeners : List Listener
  nextListenerId : Nat
  isSessionActive : Bool
  volumeObservation : Bool
  notifObserversRegistered : Bool
deriving DecidableEq, Repr

/-- The state right after `init()`: `registerListeners()` adds the
NotificationCenter observers unconditionally; all registries are empty
and the id counter starts at 0. -/
def initState : MgrState :=
  { interruptionListeners := []
    routeChangeListeners := []
    volumeListeners := []
    nextListenerId := 0
    isSessionActive := false
    volumeObservation := false
    notifObserversRegistered := true }

/-- `addInterruptionListener`: append a listener with the next id,
bump the counter, return the id. -/
def addInterruptionListener (tag : Nat) (s : MgrState) : Nat × MgrState :=
  let listener : Listener := ⟨s.nextListenerId, tag⟩
  (listener.id,
    { s with interruptionListeners := s.interruptionListeners ++ [listener]
             nextListenerId := s.nextListenerId + 1 })

/-- `removeInterruptionListener`: `removeAll { $0.id == id }`. -/
def removeInterruptionListener (id : Nat) (s : MgrState) : MgrState :=
  { s with interruptionListeners := s.interruptionListeners.filter (fun l => l.id ≠ id) }

/-- `addRouteChangeListener`. -/
def addRouteChangeListener (tag : Nat) (s : MgrState) : Nat × MgrState :=
  let listener : Listener := ⟨s.nextListenerId, tag⟩
  (listener.id,
    { s with routeChangeListeners := s.routeChangeListeners ++ [listener]
             nextListenerId := s.nextListenerId + 1 })

/-- `removeRouteChangeListener`. -/
def removeRouteChangeListener (id : Nat) (s : MgrState) : MgrState :=
  { s with routeChangeListeners := s.routeChangeListeners.filter (fun l => l.id ≠ id) }

/-- `addVolumeListener`: if the session is not active, set the ambient
category and activate it (the flag is set unconditionally after the
`try?` calls); append the listener; install the KVO volume observation
if it is not installed yet. -/
def addVolumeListener (tag : Nat) (s : MgrState) : Nat × MgrState :=
  let s1 := if ¬s.isSessionActive then { s with isSessionActive := true } else s
  let listener : Listener := ⟨s1.nextListenerId, tag⟩
  let s2 := { s1 with volumeListeners := s1.volumeListeners ++ [listener]
                      nextListenerId := s1.nextListenerId + 1 }
  let s3 := if ¬s2.volumeObservation then { s2 with volumeObservation := true } else s2
  (listener.id, s3)

/-- `removeVolumeListener`: filter the registry, and when it becomes
empty invalidate the KVO observation. -/
def removeVolumeListener (id : Nat) (s : MgrState) : MgrState :=
  let s1 := { s with volumeListeners := s.volumeListeners.filter (fun l => l.id ≠ id) }
  if s1.volumeListeners.isEmpty then { s1 with volumeObservation := false } else s1

/-- Result of `activate` / `deactivate`: warnings delivered, native
calls attempted, outcome, and the state afterwards. -/
structure SessionCallResult where
  warnings : List Warning
  nativeCalls : List NativeCall
  result : Except ConfigError Unit
  state : MgrState
deriving DecidableEq, Repr

/-- Shallow embedding of `activate`: activate the session when it is
inactive; when it is already active deliver a warning (whose name
depends on whether volume listeners are registered) and succeed without
touching any state. -/
def activate (env : OSEnv) (s : MgrState) : SessionCallResult :=
  if ¬s.isSessionActive then
    if env.setActiveOk then
      ⟨[], [.setActive true false], .ok (), { s with isSessionActive := true }⟩
    else
      ⟨[], [.setActive true false],
        .error ⟨"ACTIVATION_FAILURE", "Failed to activate audio session"⟩, s⟩
  else
    if s.volumeListeners.isEmpty then
      ⟨[⟨"MULTIPLE_ACTIVATION_WARNING",
          "Activation function called while the session was already active. Did you mean to do this?"⟩],
        [], .ok (), s⟩
    else
      ⟨[⟨"SESSION_ALREADY_ACTIVE_WITH_VOLUME_LISTENER",
          "Warning Only: The audio session was already active with a volume listener."⟩],
        [], .ok (), s⟩

/-- Shallow embedding of `deactivate`: with the fallback flag set,
only re-set the category to ambient/mixable and leave the session
active; otherwise deactivate when active (passing
`notifyOthersOnDeactivation` iff restoration was requested) and deliver
a redundancy warning when already inactive. -/
def deactivate (restorePreviousSessionOnDeactivation
    fallbackToAmbientCategoryAndLeaveActiveForVolumeListener : Bool)
    (env : OSEnv) (s : MgrState) : SessionCallResult :=
  if fallbackToAmbientCategoryAndLeaveActiveForVolumeListener then
    if env.setCategoryOk then
      ⟨[], [.setCategory .ambient .default .default [.mixWithOthers]], .ok (), s⟩
    else
      ⟨[], [.setCategory .ambient .default .default [.mixWithOthers]],
        .error ⟨"DEACTIVATION_ERROR", "Failed to set AudioSession category to Ambient"⟩, s⟩
  else
    if s.isSessionActive then
      if env.setActiveOk then
        ⟨[], [.setActive false restorePreviousSessionOnDeactivation], .ok (),
          { s with isSessionActive := false }⟩
      else
        ⟨[], [.setActive false restorePreviousSessionOnDeactivation],
          .error ⟨"DEACTIVATION_FAILURE", "Failed to deactivate audio session"⟩, s⟩
    else
      ⟨[⟨"MULTIPLE_DEACTIVATION_WARNING",
          "Deactivation function called while the session was already inactivate. Did you mean to do this?"⟩],
        [], .ok (), s⟩

/-- `reactivateSessionIfVolumeListenersAreActive` (foreground
notification): re-activate only when inactive and volume listeners
exist; the flag is set only when the native call succeeds. -/
def enterForeground (env : OSEnv) (s : MgrState) : MgrState :=
  if ¬s.isSessionActive ∧ ¬s.volumeListeners.isEmpty ∧ env.setActiveOk then
    { s with isSessionActive := true }
  else s

/-- `handleDidEnterBackground`. -/
def enterBackground (s : MgrState) : MgrState :=
  { s with isSessionActive := false }

/-- One operation on the manager, used to characterise reachable
states. -/
inductive MgrOp
  | addInterruption (tag : Nat)
  | removeInterruption (id : Nat)
  | addRouteChange (tag : Nat)
  | removeRouteChange (id : Nat)
  | addVolume (tag : Nat)
  | removeVolume (id : Nat)
  | sessionActivate (env : OSEnv)
  | sessionDeactivate (restore fallback : Bool) (env : OSEnv)
  | foreground (env : OSEnv)
  | background
deriving Repr

/-- The state transition of one operation. -/
def applyOp : MgrOp → MgrState → MgrState
  | .addInterruption tag, s => (addInterruptionListener tag s).2
  | .removeInterruption id, s => removeInterruptionListener id s
  | .addRouteChange tag, s => (addRouteChangeListener tag s).2
  | .removeRouteChange id, s => removeRouteChangeListener id s
  | .addVolume tag, s => (addVolumeListener tag s).2
  | .removeVolume id, s => removeVolumeListener id s
  | .sessionActivate env, s => (activate env s).state
  | .sessionDeactivate restore fallback env, s => (deactivate restore fallback env s).state
  | .foreground env, s => enterForeground env s
  | .background, s => enterBackground s

/-- States reachable from `initState` by any sequence of operations. -/
inductive Reachable : MgrState → Prop
  | init : Reachable initState
  | step {s : MgrState} (op : MgrOp) : Reachable s → Reachable (applyOp op s)

/-- SDK-level interruption reasons (`AVAudioSession.InterruptionReason`). -/
inductive AVInterruptionReason
  | default
  | builtInMicMuted
  | routeDisconnected
deriving DecidableEq, Repr

/-- SDK-level interruption types (`AVAudioSession.InterruptionType`). -/
inductive AVInterruptionType
  | began
  | ended
deriving DecidableEq, Repr

/-- SDK-level route-change reasons (`AVAudioSession.RouteChangeReason`). -/
inductive AVRouteChangeReason
  | unknown
  | newDeviceAvailable
  | oldDeviceUnavailable
  | categoryChange
  | override
  | wakeFromSleep
  | noSuitableRouteForCategory
  | routeConfigurationChange
deriving DecidableEq, Repr

/-- Interruption reason in the event vocabulary exposed to JS. -/
inductive InterruptionReason
  | default
  | builtinmicmuted
  | routedisconnected
deriving DecidableEq, Repr

/-- Interruption type in the event vocabulary exposed to JS. -/
inductive InterruptionType
  | began
  | ended
deriving DecidableEq, Repr

/-- Route-change reason in the event vocabulary exposed to JS. -/
inductive RouteChangeReason
  | unknown
  | newdeviceavailable
  | olddeviceunavailable
  | categorychange
  | override
  | wakefromsleep
  | nosuitablerouteforcategory
  | routeconfigurationchange
deriving DecidableEq, Repr

/-- A serialized audio port, as delivered inside route-change events. -/
structure PortDescription where
  portName : String
  portType : String
  uid : String
deriving DecidableEq, Repr

/-- The event handed to interruption listeners. -/
structure InterruptionEvent where
  type : InterruptionType
  reason : InterruptionReason
deriving DecidableEq, Repr

/-- The event handed to route-change listeners. -/
structure RouteChangeEvent where
  prevRoute : List PortDescription
  currentRoute : List PortDescription
  reason : RouteChangeReason
deriving DecidableEq, Repr

/-- `readableInterruptionReason`: map the SDK reason to the JS
vocabulary; `routeDisconnected` is only recognised on iOS 17+. -/
def readableInterruptionReason (ios17 : Bool) :
    Option AVInterruptionReason → InterruptionReason
  | none => .default
  | some r =>
    match r with
    | .builtInMicMuted => .builtinmicmuted
    | _ => if ios17 ∧ r = .routeDisconnected then .routedisconnected else .default

/-- `readableRouteChangeReason`. -/
def readableRouteChangeReason : AVRouteChangeReason → RouteChangeReason
  | .routeConfigurationChange => .routeconfigurationchange
  | .newDeviceAvailable => .newdeviceavailable
  | .oldDeviceUnavailable => .olddeviceunavailable
  | .categoryChange => .categorychange
  | .override => .override
  | .wakeFromSleep => .wakefromsleep
  | .noSuitableRouteForCategory => .nosuitablerouteforcategory
  | _ => .unknown

/-- Raw interruption data delivered by the OS notification: the decoded
`userInfo` entries (`none` models a missing dictionary key; the
`rawValue` fallback `?? .default` is applied inside the handler). -/
structure InterruptionInfo where
  rawReason : Option AVInterruptionReason
  rawType : Option AVInterruptionType
deriving DecidableEq, Repr

/-- Raw route-change data delivered by the OS notification: the decoded
reason (with its `?? .unknown` fallback applied inside the handler) and
the previous route's serialized outputs when present; the current route
is read from the audio session. -/
structure RouteChangeInfo where
  rawReason : AVRouteChangeReason
  previousRouteOutputs : Option (List PortDescription)
deriving DecidableEq, Repr

/-- The single event value constructed by `handleInterruption`. -/
def interruptionEventOf (ios17 : Bool) (info : InterruptionInfo) : InterruptionEvent :=
  { type := if info.rawType = some .began then .began else .ended
    reason := readableInterruptionReason ios17 info.rawReason }

/-- The single event value constructed by `handleRouteChange`. -/
def routeChangeEventOf (info : RouteChangeInfo)
    (currentRoute : List PortDescription) : RouteChangeEvent :=
  { prevRoute := info.previousRouteOutputs.getD []
    currentRoute := currentRoute
    reason := readableRouteChangeReason info.rawReason }

/-- `handleInterruption` fan-out: when the `userInfo` keys are present,
construct one event and invoke each registered callback with it, in
registry order; the returned trace lists each invocation as
(listener, event). -/
def handleInterruption (ios17 : Bool) (s : MgrState)
    (userInfo : Option InterruptionInfo) : List (Listener × InterruptionEvent) :=
  match userInfo with
  | none => []
  | some info =>
    match info.rawReason, info.rawType with
    | some _, some _ =>
      let ev := interruptionEventOf ios17 info
      s.interruptionListeners.map (fun l => (l, ev))
    | _, _ => []

/-- `handleRouteChange` fan-out. -/
def handleRouteChange (s : MgrState) (userInfo : Option RouteChangeInfo)
    (currentRoute : List PortDescription) : List (Listener × RouteChangeEvent) :=
  match userInfo with
  | none => []
  | some info =>
    let ev := routeChangeEventOf info currentRoute
    s.routeChangeListeners.map (fun l => (l, ev))

/-- The KVO volume-observation fan-out: the observed volume is the new
value when present, otherwise the session's current output volume; each
registered callback receives the same number. -/
def handleVolumeChange (s : MgrState) (newValue : Option ℚ)
    (outputVolume : ℚ) : List (Listener × ℚ) :=
  let volume := newValue.getD outputVolume
  s.volumeListeners.map (fun l => (l, volume))

/-- The JS-side `setSystemVolume` of the wrapper layer (`hooks.tsx` /
`functions.ts`): clamp the requested value into [0, 1] with a console
warning for out-of-range input, then forward the clamped setpoint and
the `showUI` flag to the native call. -/
def setSystemVolume (value : ℚ) (showUI : Bool) : List String × ℚ × Bool :=
  if value < 0 then
    (["setSystemVolume received value < 0, clamping to 0."], 0, showUI)
  else if value > 1 then
    (["setSystemVolume received value > 1, clamping to 1."], 1, showUI)
  else
    ([], value, showUI)

/-- The string token for each category, as used across the TS/native
boundary. -/
def catName : AVCategory → String
  | .ambient => "Ambient"
  | .soloAmbient => "SoloAmbient"
  | .playback => "Playback"
  | .record => "Record"
  | .playAndRecord => "PlayAndRecord"
  | .multiRoute => "MultiRoute"

/-- The compatibility table `AudioSessionCompatibleModes` declared in
`types.ts` (identical to the spec's category → legal-modes table):
the mode tokens the library itself declares legal for each category. -/
def tsCompatibleModes : AVCategory → List String
  | .ambient => ["Default", "SpokenAudio"]
  | .soloAmbient => ["Default", "SpokenAudio"]
  | .playback => ["Default", "MoviePlayback", "SpokenAudio", "Measurement"]
  | .record => ["Default", "VideoRecording", "VideoChat", "Measurement", "SpokenAudio"]
  | .playAndRecord =>
    ["Default", "Measurement", "SpokenAudio", "VoiceChat", "VideoChat", "GameChat",
      "VideoRecording", "VoicePrompt"]
  | .multiRoute => ["Default", "SpokenAudio"]

/-- The compatibility table `AudioSessionCompatibleCategoryOptions`
declared in `types.ts`: the category-option tokens the library itself
declares legal for each category. -/
def tsCompatibleCategoryOptions : AVCategory → List String
  | .ambient => ["MixWithOthers"]
  | .soloAmbient => []
  | .playback => ["MixWithOthers", "DuckOthers", "InterruptSpokenAudioAndMixWithOthers"]
  | .record => ["AllowBluetoothHFP"]
  | .playAndRecord =>
    ["MixWithOthers", "DuckOthers", "InterruptSpokenAudioAndMixWithOthers",
      "AllowBluetoothHFP", "AllowBluetoothA2DP", "AllowAirPlay", "DefaultToSpeaker",
      "OverrideMutedMicrophoneInterruption"]
  | .multiRoute => ["MixWithOthers", "DuckOthers", "InterruptSpokenAudioAndMixWithOthers"]

/-- The option tokens recognised by the native validator's switch. -/
inductive OptionToken
  | mixWithOthers
  | allowBluetooth
  | allowBluetoothA2DP
  | allowAirPlay
  | duckOthers
  | defaultToSpeaker
  | interruptSpokenAudioAndMixWithOthers
  | overrideMutedMicrophoneInterruption
deriving DecidableEq, Repr, Fintype

/-- The request string of each recognised option token. -/
def OptionToken.token : OptionToken → String
  | .mixWithOthers => "MixWithOthers"
  | .allowBluetooth => "AllowBluetooth"
  | .allowBluetoothA2DP => "AllowBluetoothA2DP"
  | .allowAirPlay => "AllowAirPlay"
  | .duckOthers => "DuckOthers"
  | .defaultToSpeaker => "DefaultToSpeaker"
  | .interruptSpokenAudioAndMixWithOthers => "InterruptSpokenAudioAndMixWithOthers"
  | .overrideMutedMicrophoneInterruption => "OverrideMutedMicrophoneInterruption"

/-- The per-option legality table of the spec (category rows of the
per-option table, with `AllowBluetoothA2DP` listing the categories
where an explicit request is not an error, i.e. everything except
Record and MultiRoute).  Requesting an option on a category outside its
row is declared illegal. -/
def specLegalCategories : OptionToken → List AVCategory
  | .mixWithOthers => [.ambient, .playback, .playAndRecord, .multiRoute]
  | .allowBluetooth => [.playAndRecord, .record]
  | .allowBluetoothA2DP => [.playAndRecord, .playback, .soloAmbient, .ambient]
  | .allowAirPlay => [.playAndRecord]
  | .duckOthers => [.playback, .playAndRecord, .multiRoute]
  | .defaultToSpeaker => [.playAndRecord]
  | .interruptSpokenAudioAndMixWithOthers => [.playback, .playAndRecord, .multiRoute]
  | .overrideMutedMicrophoneInterruption => [.playAndRecord, .record]

/-- The error name of a run, when it failed. -/
def runErrName (r : ConfigRun) : Option String :=
  match r.result with
  | .error e => some e.name
  | .ok _ => none

/-- The error name of an option-validation outcome, when it failed. -/
def vErrName (p : List Warning × Except ConfigError (List AVOption)) : Option String :=
  match p.2 with
  | .error e => some e.name
  | .ok _ => none

/-- The preference-flag defaults of the JS wrapper
(`configureAudioSession` in `index.tsx`). -/
def prefDefaults : PrefFlags :=
  { prefersNoInterruptionFromSystemAlerts := true
    prefersInterruptionOnRouteDisconnect := true
    allowHapticsAndSystemSoundsDuringRecording := true
    prefersEchoCancelledInput := true }

/-- Category tokens round-trip through the parser. -/
theorem parseCategory_catName (c : AVCategory) : parseCategory (catName c) = .ok c := by
  cases c <;> rfl

/-- Option validation rejects every option/category pair outside the
legality table with `UNSUPPORTED_CATEGORY_OPTION`, for both outcomes of
the iOS-16 availability check. -/
theorem validateOptions_illegal (c : AVCategory) (o : OptionToken) (b : Bool)
    (h : c ∉ specLegalCategories o) :
    vErrName (validateOptions c (catName c) b [o.token] [] []) =
      some "UNSUPPORTED_CATEGORY_OPTION" := by
  revert h
  revert c o b
  decide

/-- A one-warning list whose name differs from `OPTION_NOT_APPLIED`
filters to nothing. -/
theorem filter_single_pref_warning (nm msg : String) (h : ¬nm = "OPTION_NOT_APPLIED") :
    List.filter (fun w => w.name = "OPTION_NOT_APPLIED")
      [({ name := nm, message := msg } : Warning)] = [] := by
  simp [List.filter_cons, h]

set_option maxHeartbeats 1600000 in
/-- The auxiliary-preference phase never emits an `OPTION_NOT_APPLIED`
warning: every warning it can produce carries a `PREFERENCE_*` name. -/
theorem applyPreferences_no_option_warning (category : AVCategory) (mode : Option AVMode)
    (categoryName modeName : String) (f : PrefFlags) (env : OSEnv) :
    (applyPreferences category mode categoryName modeName f env).2.filter
      (fun w => w.name = "OPTION_NOT_APPLIED") = [] := by
  simp only [applyPreferences, warnUnless, List.filter_append]
  repeat' split
  all_goals simp only [List.filter_nil, List.nil_append, List.append_nil,
    filter_single_pref_warning "PREFERENCE_FAILURE_NO_INTERRUPTIONS" _ (by decide),
    filter_single_pref_warning "PREFERENCE_FAILURE_HAPTICS" _ (by decide),
    filter_single_pref_warning "PREFERENCE_FAILURE_ROUTE_DISCONNECT" _ (by decide),
    filter_single_pref_warning "PREFERENCE_WARNING_ECHO_CANCELLATION" _ (by decide)]

/-- C3: for every (category, option) pair outside the per-category
legality table, `configureAudioSession` fails with
`UNSUPPORTED_CATEGORY_OPTION` and performs no native call at all (in
particular the native category-set call is never issued), for every
environment and preference-flag combination. -/
theorem illegal_option_rejected_before_native_call (c : AVCategory) (o : OptionToken)
    (f : PrefFlags) (env : OSEnv) (h : c ∉ specLegalCategories o) :
    runErrName (configureAudioSession (catName c) "Default" "Default" [o.token] f env) =
        some "UNSUPPORTED_CATEGORY_OPTION" ∧
      (configureAudioSession (catName c) "Default" "Default" [o.token] f env).nativeCalls
        = [] := by
  have hv := validateOptions_illegal c o env.ios16 h
  unfold configureAudioSession
  rw [parseCategory_catName]
  rcases hval : validateOptions c (catName c) env.ios16 [o.token] [] [] with ⟨w, r⟩
  rw [hval] at hv
  cases r with
  | error e =>
    simp only [vErrName] at hv
    have he : e.name = "UNSUPPORTED_CATEGORY_OPTION" := by simpa using hv
    simp [parseMode, runErrName, hval, he]
  | ok opts => simp [vErrName] at hv

/-- Witness for C3 at category Record with option AllowAirPlay. -/
theorem illegal_option_rejected_before_native_call_witness :
    AVCategory.record ∉ specLegalCategories .allowAirPlay ∧
      runErrName (configureAudioSession (catName .record) "Default" "Default"
          [OptionToken.allowAirPlay.token] prefDefaults envAllOk) =
        some "UNSUPPORTED_CATEGORY_OPTION" ∧
      (configureAudioSession (catName .record) "Default" "Default"
          [OptionToken.allowAirPlay.token] prefDefaults envAllOk).nativeCalls = [] :=
  ⟨by decide,
    illegal_option_rejected_before_native_call .record .allowAirPlay prefDefaults envAllOk
      (by decide)⟩

/-- C1 evidence: `VoicePrompt` is a legal mode for `PlayAndRecord` in
the library's own compatibility table (`AudioSessionCompatibleModes` in
`types.ts`), yet `configureAudioSession` rejects the pair with
`INVALID_MODE` because the native mode switch has no `VoicePrompt`
case. -/
theorem voicePrompt_mode_rejected :
    "VoicePrompt" ∈ tsCompatibleModes .playAndRecord ∧
      (configureAudioSession "PlayAndRecord" "VoicePrompt" "Default" [] prefDefaults
          envAllOk).result =
        .error ⟨"INVALID_MODE", "Unknown mode: VoicePrompt"⟩ ∧
      (configureAudioSession "PlayAndRecord" "VoicePrompt" "Default" [] prefDefaults
          envAllOk).nativeCalls = [] := by
  decide

/-- C4 evidence: `AllowBluetoothHFP` is the option token the library's
own legality table (`AudioSessionCompatibleCategoryOptions` in
`types.ts`) declares legal for `PlayAndRecord` and `Record`, and the JS
wrapper forwards option tokens verbatim; yet the native option switch
only recognises the spelling "AllowBluetooth", so the request fails
with `INVALID_CATEGORY_OPTION` and no native call is made. -/
theorem allowBluetoothHFP_token_rejected :
    "AllowBluetoothHFP" ∈ tsCompatibleCategoryOptions .playAndRecord ∧
      "AllowBluetoothHFP" ∈ tsCompatibleCategoryOptions .record ∧
      (configureAudioSession "PlayAndRecord" "Default" "Default" ["AllowBluetoothHFP"]
          prefDefaults envAllOk).result =
        .error ⟨"INVALID_CATEGORY_OPTION", "Unknown category option: AllowBluetoothHFP"⟩ ∧
      (configureAudioSession "Record" "Default" "Default" ["AllowBluetoothHFP"]
          prefDefaults envAllOk).result =
        .error ⟨"INVALID_CATEGORY_OPTION", "Unknown category option: AllowBluetoothHFP"⟩ ∧
      (configureAudioSession "PlayAndRecord" "Default" "Default" ["AllowBluetoothHFP"]
          prefDefaults envAllOk).nativeCalls = [] := by
  decide

/-- C2: requesting `AllowBluetoothA2DP` explicitly. With category
PlayAndRecord the native category-set call includes the option and no
already-implied warning is emitted; with Ambient, SoloAmbient or
Playback the call succeeds, the option is not part of the native option
set, and exactly one `OPTION_NOT_APPLIED` warning naming the option is
delivered; with Record or MultiRoute the call fails with
`UNSUPPORTED_CATEGORY_OPTION`. -/
theorem allowBluetoothA2DP_explicit_request (f : PrefFlags) (env : OSEnv)
    (h : env.setCategoryOk = true) :
    ((configureAudioSession "PlayAndRecord" "Default" "Default" ["AllowBluetoothA2DP"]
        f env).result = .ok () ∧
      (configureAudioSession "PlayAndRecord" "Default" "Default" ["AllowBluetoothA2DP"]
        f env).nativeCalls.head? =
        some (.setCategory .playAndRecord .default .default [.allowBluetoothA2DP]) ∧
      (configureAudioSession "PlayAndRecord" "Default" "Default" ["AllowBluetoothA2DP"]
        f env).warnings.filter (fun w => w.name = "OPTION_NOT_APPLIED") = []) ∧
    (∀ c : AVCategory, c = .ambient ∨ c = .soloAmbient ∨ c = .playback →
      (configureAudioSession (catName c) "Default" "Default" ["AllowBluetoothA2DP"]
        f env).result = .ok () ∧
      (configureAudioSession (catName c) "Default" "Default" ["AllowBluetoothA2DP"]
        f env).nativeCalls.head? = some (.setCategory c .default .default []) ∧
      (configureAudioSession (catName c) "Default" "Default" ["AllowBluetoothA2DP"]
        f env).warnings.filter (fun w => w.name = "OPTION_NOT_APPLIED") =
        [⟨"OPTION_NOT_APPLIED",
          "AllowBluetoothA2DP is applied by default for category " ++ catName c ++ "."⟩]) ∧
    (∀ c : AVCategory, c = .record ∨ c = .multiRoute →
      (configureAudioSession (catName c) "Default" "Default" ["AllowBluetoothA2DP"]
        f env).result =
        .error ⟨"UNSUPPORTED_CATEGORY_OPTION",
          "AllowBluetoothA2DP is not supported for category " ++ catName c⟩) := by
  refine ⟨?_, ?_, ?_⟩
  · simp [configureAudioSession, parseCategory, parseMode, parsePolicy, validateOptions,
      processOption, insertOpt, setCategoryCall, h, List.filter_append,
      applyPreferences_no_option_warning]
  · intro c hc
    rcases hc with rfl | rfl | rfl <;>
      simp [configureAudioSession, catName, parseCategory, parseMode, parsePolicy,
        validateOptions, processOption, insertOpt, setCategoryCall, h,
        List.filter_append, applyPreferences_no_option_warning]
  · intro c hc
    rcases hc with rfl | rfl <;>
      simp [configureAudioSession, catName, parseCategory, parseMode, parsePolicy,
        validateOptions, processOption, insertOpt]

/-- Witness for C2 with the all-succeeding environment. -/
theorem allowBluetoothA2DP_explicit_request_witness :
    envAllOk.setCategoryOk = true ∧
      (configureAudioSession "PlayAndRecord" "Default" "Default" ["AllowBluetoothA2DP"]
        prefDefaults envAllOk).result = .ok () ∧
      (configureAudioSession (catName .soloAmbient) "Default" "Default"
        ["AllowBluetoothA2DP"] prefDefaults envAllOk).warnings.filter
          (fun w => w.name = "OPTION_NOT_APPLIED") =
        [⟨"OPTION_NOT_APPLIED",
          "AllowBluetoothA2DP is applied by default for category "
            ++ catName .soloAmbient ++ "."⟩] :=
  ⟨rfl,
    (allowBluetoothA2DP_explicit_request prefDefaults envAllOk rfl).1.1,
    ((allowBluetoothA2DP_explicit_request prefDefaults envAllOk rfl).2.1 .soloAmbient
      (Or.inr (Or.inl rfl))).2.2⟩

theorem addInterruptionListener_fst (tag : Nat) (s : MgrState) :
    (addInterruptionListener tag s).1 = s.nextListenerId := rfl

theorem addRouteChangeListener_fst (tag : Nat) (s : MgrState) :
    (addRouteChangeListener tag s).1 = s.nextListenerId := rfl

theorem addVolumeListener_fst (tag : Nat) (s : MgrState) :
    (addVolumeListener tag s).1 = s.nextListenerId := by
  cases hA : s.isSessionActive <;> simp [addVolumeListener, hA]

theorem addVolumeListener_volumeListeners (tag : Nat) (s : MgrState) :
    (addVolumeListener tag s).2.volumeListeners =
      s.volumeListeners ++ [⟨s.nextListenerId, tag⟩] := by
  cases hA : s.isSessionActive <;> cases hB : s.volumeObservation <;>
    simp [addVolumeListener, hA, hB]

theorem addVolumeListener_nextId (tag : Nat) (s : MgrState) :
    (addVolumeListener tag s).2.nextListenerId = s.nextListenerId + 1 := by
  cases hA : s.isSessionActive <;> cases hB : s.volumeObservation <;>
    simp [addVolumeListener, hA, hB]

theorem addVolumeListener_observation (tag : Nat) (s : MgrState) :
    (addVolumeListener tag s).2.volumeObservation = true := by
  cases hA : s.isSessionActive <;> cases hB : s.volumeObservation <;>
    simp [addVolumeListener, hA, hB]

theorem addVolumeListener_interruption (tag : Nat) (s : MgrState) :
    (addVolumeListener tag s).2.interruptionListeners = s.interruptionListeners := by
  cases hA : s.isSessionActive <;> cases hB : s.volumeObservation <;>
    simp [addVolumeListener, hA, hB]

theorem addVolumeListener_routeChange (tag : Nat) (s : MgrState) :
    (addVolumeListener tag s).2.routeChangeListeners = s.routeChangeListeners := by
  cases hA : s.isSessionActive <;> cases hB : s.volumeObservation <;>
    simp [addVolumeListener, hA, hB]

theorem addVolumeListener_notif (tag : Nat) (s : MgrState) :
    (addVolumeListener tag s).2.notifObserversRegistered = s.notifObserversRegistered := by
  cases hA : s.isSessionActive <;> cases hB : s.volumeObservation <;>
    simp [addVolumeListener, hA, hB]

theorem removeVolumeListener_volumeListeners (id : Nat) (s : MgrState) :
    (removeVolumeListener id s).volumeListeners =
      s.volumeListeners.filter (fun l => l.id ≠ id) := by
  unfold removeVolumeListener
  dsimp only
  split <;> rfl

theorem removeVolumeListener_interruption (id : Nat) (s : MgrState) :
    (removeVolumeListener id s).interruptionListeners = s.interruptionListeners := by
  unfold removeVolumeListener
  dsimp only
  split <;> rfl

theorem removeVolumeListener_routeChange (id : Nat) (s : MgrState) :
    (removeVolumeListener id s).routeChangeListeners = s.routeChangeListeners := by
  unfold removeVolumeListener
  dsimp only
  split <;> rfl

theorem removeVolumeListener_nextId (id : Nat) (s : MgrState) :
    (removeVolumeListener id s).nextListenerId = s.nextListenerId := by
  unfold removeVolumeListener
  dsimp only
  split <;> rfl

theorem removeVolumeListener_notif (id : Nat) (s : MgrState) :
    (removeVolumeListener id s).notifObserversRegistered = s.notifObserversRegistered := by
  unfold removeVolumeListener
  dsimp only
  split <;> rfl

/-- `activate` either leaves the state unchanged or merely raises the
session-active flag. -/
theorem activate_state (env : OSEnv) (s : MgrState) :
    (activate env s).state = s ∨ (activate env s).state = { s with isSessionActive := true } := by
  unfold activate
  repeat' split
  all_goals first | exact Or.inl rfl | exact Or.inr rfl

/-- `deactivate` either leaves the state unchanged or merely clears the
session-active flag. -/
theorem deactivate_state (restore fallback : Bool) (env : OSEnv) (s : MgrState) :
    (deactivate restore fallback env s).state = s ∨
      (deactivate restore fallback env s).state = { s with isSessionActive := false } := by
  unfold deactivate
  repeat' split
  all_goals first | exact Or.inl rfl | exact Or.inr rfl

theorem enterForeground_state (env : OSEnv) (s : MgrState) :
    enterForeground env s = s ∨ enterForeground env s = { s with isSessionActive := true } := by
  unfold enterForeground
  split
  · exact Or.inr rfl
  · exact Or.inl rfl

/-- The invariant maintained by every reachable manager state: the
NotificationCenter observers installed by `init()` stay registered, the
KVO volume observation is installed exactly when the volume registry is
non-empty, and each registry's id list is strictly increasing and
bounded by the shared counter. -/
abbrev MgrInv (s : MgrState) : Prop :=
  s.notifObserversRegistered = true ∧
  (s.volumeObservation = true ↔ s.volumeListeners ≠ []) ∧
  (s.interruptionListeners.map Listener.id).Pairwise (· < ·) ∧
  (s.routeChangeListeners.map Listener.id).Pairwise (· < ·) ∧
  (s.volumeListeners.map Listener.id).Pairwise (· < ·) ∧
  (∀ l ∈ s.interruptionListeners, l.id < s.nextListenerId) ∧
  (∀ l ∈ s.routeChangeListeners, l.id < s.nextListenerId) ∧
  (∀ l ∈ s.volumeListeners, l.id < s.nextListenerId)

theorem pairwise_ids_append (l : List Listener) (n tag : Nat)
    (hp : (l.map Listener.id).Pairwise (· < ·)) (hb : ∀ x ∈ l, x.id < n) :
    ((l ++ [Listener.mk n tag]).map Listener.id).Pairwise (· < ·) := by
  rw [List.map_append]
  refine List.pairwise_append.mpr ⟨hp, by simp, ?_⟩
  intro x hx y hy
  simp only [List.map_cons, List.map_nil, List.mem_singleton] at hy
  subst hy
  rcases List.mem_map.mp hx with ⟨a, ha, rfl⟩
  exact hb a ha

theorem pairwise_ids_filter (l : List Listener) (p : Listener → Bool)
    (hp : (l.map Listener.id).Pairwise (· < ·)) :
    ((l.filter p).map Listener.id).Pairwise (· < ·) :=
  hp.sublist (List.Sublist.map Listener.id (List.filter_sublist l))

/-- After `removeVolumeListener` the volume observation is installed
exactly when listeners remain, provided that held beforehand. -/
theorem removeVolumeListener_observation_iff (id : Nat) (s : MgrState)
    (h2 : s.volumeObservation = true ↔ s.volumeListeners ≠ []) :
    (removeVolumeListener id s).volumeObservation = true ↔
      (removeVolumeListener id s).volumeListeners ≠ [] := by
  rw [removeVolumeListener_volumeListeners]
  unfold removeVolumeListener
  dsimp only
  split
  · rename_i hemp
    constructor
    · intro hfalse
      simp at hfalse
    · intro hne
      exact absurd (List.isEmpty_iff.mp hemp) hne
  · rename_i hemp
    have hne : s.volumeListeners.filter (fun l => l.id ≠ id) ≠ [] := by
      intro hx
      refine hemp ?_
      rw [hx]
      rfl
    have hvl : s.volumeListeners ≠ [] := by
      intro hx
      refine hne ?_
      rw [hx]
      rfl
    exact ⟨fun _ => hne, fun _ => h2.mpr hvl⟩

/-- Every reachable state satisfies the invariant. -/
theorem reachable_inv {s : MgrState} (h : Reachable s) : MgrInv s := by
  induction h with
  | init =>
    refine And.intro rfl (And.intro ?_ ?_) <;> simp [initState]
  | step op hr ih =>
    obtain ⟨h1, h2, h3, h4, h5, h6, h7, h8⟩ := ih
    rename_i s'
    cases op with
    | addInterruption tag =>
      simp only [applyOp]
      refine ⟨h1, h2, ?_, h4, h5, ?_, ?_, ?_⟩
      · exact pairwise_ids_append _ _ _ h3 h6
      · intro l hl
        rcases List.mem_append.mp hl with hl | hl
        · exact Nat.lt_succ_of_lt (h6 l hl)
        · simp only [List.mem_singleton] at hl
          subst hl
          exact Nat.lt_succ_self _
      · exact fun l hl => Nat.lt_succ_of_lt (h7 l hl)
      · exact fun l hl => Nat.lt_succ_of_lt (h8 l hl)
    | removeInterruption id =>
      simp only [applyOp]
      refine ⟨h1, h2, ?_, h4, h5, ?_, h7, h8⟩
      · exact pairwise_ids_filter _ _ h3
      · exact fun l hl => h6 l (List.mem_of_mem_filter hl)
    | addRouteChange tag =>
      simp only [applyOp]
      refine ⟨h1, h2, h3, ?_, h5, ?_, ?_, ?_⟩
      · exact pairwise_ids_append _ _ _ h4 h7
      · exact fun l hl => Nat.lt_succ_of_lt (h6 l hl)
      · intro l hl
        rcases List.mem_append.mp hl with hl | hl
        · exact Nat.lt_succ_of_lt (h7 l hl)
        · simp only [List.mem_singleton] at hl
          subst hl
          exact Nat.lt_succ_self _
      · exact fun l hl => Nat.lt_succ_of_lt (h8 l hl)
    | removeRouteChange id =>
      simp only [applyOp]
      refine ⟨h1, h2, h3, ?_, h5, h6, ?_, h8⟩
      · exact pairwise_ids_filter _ _ h4
      · exact fun l hl => h7 l (List.mem_of_mem_filter hl)
    | addVolume tag =>
      simp only [applyOp]
      refine ⟨?_, ?_, ?_, ?_, ?_, ?_, ?_, ?_⟩
      · rw [addVolumeListener_notif]
        exact h1
      · rw [addVolumeListener_observation, addVolumeListener_volumeListeners]
        simp
      · rw [addVolumeListener_interruption]
        exact h3
      · rw [addVolumeListener_routeChange]
        exact h4
      · rw [addVolumeListener_volumeListeners]
        exact pairwise_ids_append _ _ _ h5 h8
      · rw [addVolumeListener_interruption, addVolumeListener_nextId]
        exact fun l hl => Nat.lt_succ_of_lt (h6 l hl)
      · rw [addVolumeListener_routeChange, addVolumeListener_nextId]
        exact fun l hl => Nat.lt_succ_of_lt (h7 l hl)
      · rw [addVolumeListener_volumeListeners, addVolumeListener_nextId]
        intro l hl
        rcases List.mem_append.mp hl with hl | hl
        · exact Nat.lt_succ_of_lt (h8 l hl)
        · simp only [List.mem_singleton] at hl
          subst hl
          exact Nat.lt_succ_self _
    | removeVolume id =>
      simp only [applyOp]
      refine ⟨?_, ?_, ?_, ?_, ?_, ?_, ?_, ?_⟩
      · rw [removeVolumeListener_notif]
        exact h1
      · exact removeVolumeListener_observation_iff id s' h2
      · rw [removeVolumeListener_interruption]
        exact h3
      · rw [removeVolumeListener_routeChange]
        exact h4
      · rw [removeVolumeListener_volumeListeners]
        exact pairwise_ids_filter _ _ h5
      · rw [removeVolumeListener_interruption, removeVolumeListener_nextId]
        exact h6
      · rw [removeVolumeListener_routeChange, removeVolumeListener_nextId]
        exact h7
      · rw [removeVolumeListener_volumeListeners, removeVolumeListener_nextId]
        exact fun l hl => h8 l (List.mem_of_mem_filter hl)
    | sessionActivate env =>
      rcases activate_state env s' with hs | hs <;>
        simp only [applyOp, hs] <;>
        exact ⟨h1, h2, h3, h4, h5, h6, h7, h8⟩
    | sessionDeactivate restore fallback env =>
      rcases deactivate_state restore fallback env s' with hs | hs <;>
        simp only [applyOp, hs] <;>
        exact ⟨h1, h2, h3, h4, h5, h6, h7, h8⟩
    | foreground env =>
      rcases enterForeground_state env s' with hs | hs <;>
        simp only [applyOp, hs] <;>
        exact ⟨h1, h2, h3, h4, h5, h6, h7, h8⟩
    | background =>
      exact ⟨h1, h2, h3, h4, h5, h6, h7, h8⟩

/-- C5 counterexample: the initial state is reachable, has zero
interruption subscribers and zero route-change subscribers, yet the
OS-level notification observers for those channels are already
registered (they are installed unconditionally by `init()`), so the
claimed "observer attached iff subscriber count ≥ 1" equivalence fails
for those channels. -/
theorem observer_attached_without_subscribers :
    Reachable initState ∧
      initState.interruptionListeners.length = 0 ∧
      initState.routeChangeListeners.length = 0 ∧
      initState.notifObserversRegistered = true :=
  ⟨Reachable.init, rfl, rfl, rfl⟩

/-- C5 (amended): in every reachable state the volume channel's KVO
observation is installed exactly when it has at least one subscriber
(registered on the 0-to-1 transition, invalidated on the 1-to-0
transition), while the interruption and route-change notification
observers are registered unconditionally at construction and stay
registered regardless of those channels' subscriber counts. -/
theorem observer_invariant_volume_only (s : MgrState) (h : Reachable s) :
    s.notifObserversRegistered = true ∧
      (s.volumeObservation = true ↔ 1 ≤ s.volumeListeners.length) := by
  obtain ⟨h1, h2, -⟩ := reachable_inv h
  refine ⟨h1, h2.trans ?_⟩
  constructor
  · intro hne
    exact List.length_pos.mpr hne
  · intro hlen
    exact List.length_pos.mp hlen

/-- Witness for the amended C5 at the initial state. -/
theorem observer_invariant_volume_only_witness :
    Reachable initState ∧
      (initState.notifObserversRegistered = true ∧
        (initState.volumeObservation = true ↔ 1 ≤ initState.volumeListeners.length)) :=
  ⟨Reachable.init, observer_invariant_volume_only initState Reachable.init⟩

/-- C6: with three subscribers registered in order on a channel, one OS
notification invokes each callback exactly once, in registration order,
passing every one the same single constructed event value. -/
theorem fanout_in_registration_order (s0 : MgrState) (tA tB tC : Nat)
    (r : AVInterruptionReason) (t : AVInterruptionType) (ri : RouteChangeInfo)
    (cur : List PortDescription) (nv : Option ℚ) (ov : ℚ) (ios17 : Bool) :
    (s0.routeChangeListeners = [] →
      handleRouteChange (addRouteChangeListener tC
          (addRouteChangeListener tB (addRouteChangeListener tA s0).2).2).2 (some ri) cur =
        [(⟨s0.nextListenerId, tA⟩, routeChangeEventOf ri cur),
         (⟨s0.nextListenerId + 1, tB⟩, routeChangeEventOf ri cur),
         (⟨s0.nextListenerId + 2, tC⟩, routeChangeEventOf ri cur)]) ∧
    (s0.interruptionListeners = [] →
      handleInterruption ios17 (addInterruptionListener tC
          (addInterruptionListener tB (addInterruptionListener tA s0).2).2).2
          (some ⟨some r, some t⟩) =
        [(⟨s0.nextListenerId, tA⟩, interruptionEventOf ios17 ⟨some r, some t⟩),
         (⟨s0.nextListenerId + 1, tB⟩, interruptionEventOf ios17 ⟨some r, some t⟩),
         (⟨s0.nextListenerId + 2, tC⟩, interruptionEventOf ios17 ⟨some r, some t⟩)]) ∧
    (s0.volumeListeners = [] →
      handleVolumeChange (addVolumeListener tC
          (addVolumeListener tB (addVolumeListener tA s0).2).2).2 nv ov =
        [(⟨s0.nextListenerId, tA⟩, nv.getD ov),
         (⟨s0.nextListenerId + 1, tB⟩, nv.getD ov),
         (⟨s0.nextListenerId + 2, tC⟩, nv.getD ov)]) := by
  refine ⟨?_, ?_, ?_⟩
  · intro h
    simp [handleRouteChange, addRouteChangeListener, h]
  · intro h
    simp [handleInterruption, addInterruptionListener, h]
  · intro h
    simp [handleVolumeChange, addVolumeListener_volumeListeners, addVolumeListener_nextId, h]

/-- Witness for C6 at the initial state with concrete tags and event
data. -/
theorem fanout_in_registration_order_witness :
    handleRouteChange (addRouteChangeListener 30
        (addRouteChangeListener 20 (addRouteChangeListener 10 initState).2).2).2
        (some ⟨.newDeviceAvailable, none⟩) [] =
      [(⟨0, 10⟩, routeChangeEventOf ⟨.newDeviceAvailable, none⟩ []),
       (⟨1, 20⟩, routeChangeEventOf ⟨.newDeviceAvailable, none⟩ []),
       (⟨2, 30⟩, routeChangeEventOf ⟨.newDeviceAvailable, none⟩ [])] ∧
    handleVolumeChange (addVolumeListener 30
        (addVolumeListener 20 (addVolumeListener 10 initState).2).2).2 (some (1/2)) 0 =
      [(⟨0, 10⟩, (1 : ℚ)/2), (⟨1, 20⟩, (1 : ℚ)/2), (⟨2, 30⟩, (1 : ℚ)/2)] :=
  ⟨(fanout_in_registration_order initState 10 20 30 .default .began
      ⟨.newDeviceAvailable, none⟩ [] (some (1/2)) 0 true).1 rfl,
    (fanout_in_registration_order initState 10 20 30 .default .began
      ⟨.newDeviceAvailable, none⟩ [] (some (1/2)) 0 true).2.2 rfl⟩

/-- The ids handed back by the `add*Listener` calls of an operation
sequence, in call order (all three channels draw from the shared
counter). -/
def runAddIds : MgrState → List MgrOp → List Nat
  | _, [] => []
  | s, op :: rest =>
    match op with
    | .addInterruption tag =>
      (addInterruptionListener tag s).1 :: runAddIds (applyOp (.addInterruption tag) s) rest
    | .addRouteChange tag =>
      (addRouteChangeListener tag s).1 :: runAddIds (applyOp (.addRouteChange tag) s) rest
    | .addVolume tag =>
      (addVolumeListener tag s).1 :: runAddIds (applyOp (.addVolume tag) s) rest
    | op' => runAddIds (applyOp op' s) rest

/-- No operation ever decreases the shared id counter. -/
theorem nextId_applyOp (op : MgrOp) (s : MgrState) :
    s.nextListenerId ≤ (applyOp op s).nextListenerId := by
  cases op with
  | addInterruption tag => exact Nat.le_succ _
  | removeInterruption id => exact Nat.le_refl _
  | addRouteChange tag => exact Nat.le_succ _
  | removeRouteChange id => exact Nat.le_refl _
  | addVolume tag =>
    simp only [applyOp, addVolumeListener_nextId]
    exact Nat.le_succ _
  | removeVolume id =>
    simp only [applyOp, removeVolumeListener_nextId]
    exact Nat.le_refl _
  | sessionActivate env =>
    rcases activate_state env s with hs | hs <;> simp [applyOp, hs]
  | sessionDeactivate restore fallback env =>
    rcases deactivate_state restore fallback env s with hs | hs <;> simp [applyOp, hs]
  | foreground env =>
    rcases enterForeground_state env s with hs | hs <;> simp [applyOp, hs]
  | background => exact Nat.le_refl _

/-- Every id returned later in a run is at least the current counter. -/
theorem runAddIds_lb (ops : List MgrOp) :
    ∀ s : MgrState, ∀ i ∈ runAddIds s ops, s.nextListenerId ≤ i := by
  induction ops with
  | nil =>
    intro s i hi
    simp [runAddIds] at hi
  | cons op rest ih =>
    intro s i hi
    cases op with
    | addInterruption tag =>
      rcases List.mem_cons.mp hi with rfl | hi
      · exact Nat.le_refl _
      · exact Nat.le_trans (nextId_applyOp (.addInterruption tag) s) (ih _ i hi)
    | addRouteChange tag =>
      rcases List.mem_cons.mp hi with rfl | hi
      · exact Nat.le_refl _
      · exact Nat.le_trans (nextId_applyOp (.addRouteChange tag) s) (ih _ i hi)
    | addVolume tag =>
      rcases List.mem_cons.mp hi with rfl | hi
      · rw [addVolumeListener_fst]
      · exact Nat.le_trans (nextId_applyOp (.addVolume tag) s) (ih _ i hi)
    | removeInterruption id =>
      exact Nat.le_trans (nextId_applyOp (.removeInterruption id) s) (ih _ i hi)
    | removeRouteChange id =>
      exact Nat.le_trans (nextId_applyOp (.removeRouteChange id) s) (ih _ i hi)
    | removeVolume id =>
      exact Nat.le_trans (nextId_applyOp (.removeVolume id) s) (ih _ i hi)
    | sessionActivate env =>
      exact Nat.le_trans (nextId_applyOp (.sessionActivate env) s) (ih _ i hi)
    | sessionDeactivate restore fallback env =>
      exact Nat.le_trans (nextId_applyOp (.sessionDeactivate restore fallback env) s)
        (ih _ i hi)
    | foreground env =>
      exact Nat.le_trans (nextId_applyOp (.foreground env) s) (ih _ i hi)
    | background =>
      exact Nat.le_trans (nextId_applyOp .background s) (ih _ i hi)

/-- C7: every `add*Listener` call returns the current value of the
single counter shared by all three channels, and across any interleaved
sequence of operations the ids returned by the add calls are strictly
increasing in call order (hence pairwise distinct across channels). -/
theorem listener_ids_strictly_increasing (s : MgrState) (ops : List MgrOp) (tag : Nat) :
    (runAddIds s ops).Pairwise (· < ·) ∧
      (addInterruptionListener tag s).1 = s.nextListenerId ∧
      (addRouteChangeListener tag s).1 = s.nextListenerId ∧
      (addVolumeListener tag s).1 = s.nextListenerId := by
  refine ⟨?_, rfl, rfl, addVolumeListener_fst tag s⟩
  induction ops generalizing s with
  | nil => simp [runAddIds]
  | cons op rest ih =>
    cases op with
    | addInterruption tg =>
      refine List.pairwise_cons.mpr ⟨?_, ih _⟩
      intro i hi
      exact Nat.lt_of_lt_of_le (Nat.lt_succ_self _) (runAddIds_lb rest _ i hi)
    | addRouteChange tg =>
      refine List.pairwise_cons.mpr ⟨?_, ih _⟩
      intro i hi
      exact Nat.lt_of_lt_of_le (Nat.lt_succ_self _) (runAddIds_lb rest _ i hi)
    | addVolume tg =>
      refine List.pairwise_cons.mpr ⟨?_, ih _⟩
      intro i hi
      rw [addVolumeListener_fst]
      refine Nat.lt_of_lt_of_le (Nat.lt_succ_self _) ?_
      have := runAddIds_lb rest _ i hi
      simpa [applyOp, addVolumeListener_nextId] using this
    | removeInterruption id => exact ih _
    | removeRouteChange id => exact ih _
    | removeVolume id => exact ih _
    | sessionActivate env => exact ih _
    | sessionDeactivate restore fallback env => exact ih _
    | foreground env => exact ih _
    | background => exact ih _

/-- C8: the JS `setSystemVolume` clamps out-of-range input, so for any
`showUI` flag a negative request forwards the same native call as a
request of 0, and a request above 1 forwards the same native call as a
request of 1. -/
theorem setSystemVolume_clamps (v : ℚ) (ui : Bool) :
    (v < 0 → (setSystemVolume v ui).2 = (setSystemVolume 0 ui).2) ∧
      (v > 1 → (setSystemVolume v ui).2 = (setSystemVolume 1 ui).2) := by
  constructor
  · intro h
    rw [setSystemVolume, setSystemVolume, if_pos h, if_neg (lt_irrefl 0)]
    norm_num
  · intro h
    have h0 : ¬v < 0 := by linarith
    rw [setSystemVolume, setSystemVolume, if_neg h0, if_pos h, if_neg (lt_irrefl 1)]
    norm_num

/-- Witness for C8 at -1/2 and 3/2. -/
theorem setSystemVolume_clamps_witness :
    ((-1 : ℚ)/2 < 0 ∧ (setSystemVolume (-1/2) true).2 = (setSystemVolume 0 true).2) ∧
      ((3 : ℚ)/2 > 1 ∧ (setSystemVolume (3/2) false).2 = (setSystemVolume 1 false).2) :=
  ⟨⟨by norm_num, (setSystemVolume_clamps (-1/2) true).1 (by norm_num)⟩,
    ⟨by norm_num, (setSystemVolume_clamps (3/2) false).2 (by norm_num)⟩⟩

/-- C9 counterexample: with the fallback-to-ambient flag set, calling
`deactivate` while the session is already inactive succeeds without
delivering any warning (the redundancy warning is only produced on the
standard deactivation path), refuting the claim for that call. -/
theorem deactivate_fallback_emits_no_warning :
    initState.isSessionActive = false ∧
      (deactivate true true envAllOk initState).warnings = [] ∧
      (deactivate true true envAllOk initState).result = .ok () ∧
      (deactivate true true envAllOk initState).state = initState := by
  refine ⟨rfl, ?_, ?_, ?_⟩ <;> rfl

/-- C9 (amended): calling `activate` while the session is already
active delivers exactly one warning, does not fail, and leaves the
state unchanged; calling `deactivate` with the fallback flag `false`
(its default in the JS wrapper) while the session is already inactive
delivers exactly the redundancy warning, does not fail, and leaves the
state unchanged. -/
theorem redundant_activate_deactivate_warn (s : MgrState) (env : OSEnv) (restore : Bool) :
    (s.isSessionActive = true →
      (activate env s).state = s ∧
        (activate env s).result = .ok () ∧
        (activate env s).warnings.length = 1) ∧
      (s.isSessionActive = false →
        (deactivate restore false env s).state = s ∧
          (deactivate restore false env s).result = .ok () ∧
          (deactivate restore false env s).warnings =
            [⟨"MULTIPLE_DEACTIVATION_WARNING",
              "Deactivation function called while the session was already inactivate. Did you mean to do this?"⟩]) := by
  constructor
  · intro h
    cases hvl : s.volumeListeners.isEmpty <;>
      simp [activate, h, hvl]
  · intro h
    simp [deactivate, h]

/-- Witness for the amended C9: an active state for `activate`, the
(inactive) initial state for `deactivate`. -/
theorem redundant_activate_deactivate_warn_witness :
    (activate envAllOk { initState with isSessionActive := true }).warnings.length = 1 ∧
      (deactivate true false envAllOk initState).result = .ok () ∧
      (deactivate true false envAllOk initState).state = initState :=
  ⟨((redundant_activate_deactivate_warn { initState with isSessionActive := true }
      envAllOk true).1 rfl).2.2,
    ((redundant_activate_deactivate_warn initState envAllOk true).2 rfl).2.1,
    ((redundant_activate_deactivate_warn initState envAllOk true).2 rfl).1⟩

/-- A filter by a non-member id keeps the whole registry. -/
theorem filter_ne_of_not_mem (l : List Listener) (rid : Nat)
    (h : rid ∉ l.map Listener.id) :
    l.filter (fun x => x.id ≠ rid) = l := by
  apply List.filter_eq_self.mpr
  intro a ha
  simp only [ne_eq, decide_not, Bool.not_eq_eq_eq_not, Bool.not_true, decide_eq_false_iff_not]
  intro hc
  exact h (hc ▸ List.mem_map_of_mem Listener.id ha)

/-- With pairwise-distinct ids, filtering out a registered id removes
exactly one listener. -/
theorem filter_ne_length (l : List Listener) (rid : Nat)
    (hnd : (l.map Listener.id).Nodup) (hm : rid ∈ l.map Listener.id) :
    (l.filter (fun x => x.id ≠ rid)).length + 1 = l.length := by
  induction l with
  | nil => simp at hm
  | cons a t ih =>
    simp only [List.map_cons, List.nodup_cons] at hnd
    rcases hnd with ⟨hna, hnt⟩
    by_cases hid : a.id = rid
    · rw [List.filter_cons_of_neg (by simp [hid])]
      rw [filter_ne_of_not_mem t rid (hid ▸ hna)]
      simp
    · rw [List.filter_cons_of_pos (by simp [hid])]
      rcases List.mem_cons.mp hm with hm' | hm'
      · exact absurd hm'.symm hid
      · simp only [List.length_cons]
        rw [← ih hnt hm']

/-- C10: on each of the three channels, `remove*Listener` with an
unregistered id leaves the whole manager state unchanged, and with a
registered id removes exactly the one listener carrying that id,
keeping every other listener of that channel and leaving the other two
registries untouched. -/
theorem remove_listener_exact (s : MgrState) (h : Reachable s) (rid : Nat) :
    (rid ∉ s.interruptionListeners.map Listener.id →
      removeInterruptionListener rid s = s) ∧
    (rid ∉ s.routeChangeListeners.map Listener.id →
      removeRouteChangeListener rid s = s) ∧
    (rid ∉ s.volumeListeners.map Listener.id →
      removeVolumeListener rid s = s) ∧
    (rid ∈ s.interruptionListeners.map Listener.id →
      (removeInterruptionListener rid s).interruptionListeners.length + 1 =
          s.interruptionListeners.length ∧
        (∀ l ∈ s.interruptionListeners, l.id ≠ rid →
          l ∈ (removeInterruptionListener rid s).interruptionListeners) ∧
        (∀ l ∈ (removeInterruptionListener rid s).interruptionListeners, l.id ≠ rid) ∧
        (removeInterruptionListener rid s).routeChangeListeners = s.routeChangeListeners ∧
        (removeInterruptionListener rid s).volumeListeners = s.volumeListeners) ∧
    (rid ∈ s.routeChangeListeners.map Listener.id →
      (removeRouteChangeListener rid s).routeChangeListeners.length + 1 =
          s.routeChangeListeners.length ∧
        (∀ l ∈ s.routeChangeListeners, l.id ≠ rid →
          l ∈ (removeRouteChangeListener rid s).routeChangeListeners) ∧
        (∀ l ∈ (removeRouteChangeListener rid s).routeChangeListeners, l.id ≠ rid) ∧
        (removeRouteChangeListener rid s).interruptionListeners = s.interruptionListeners ∧
        (removeRouteChangeListener rid s).volumeListeners = s.volumeListeners) ∧
    (rid ∈ s.volumeListeners.map Listener.id →
      (removeVolumeListener rid s).volumeListeners.length + 1 =
          s.volumeListeners.length ∧
        (∀ l ∈ s.volumeListeners, l.id ≠ rid →
          l ∈ (removeVolumeListener rid s).volumeListeners) ∧
        (∀ l ∈ (removeVolumeListener rid s).volumeListeners, l.id ≠ rid) ∧
        (removeVolumeListener rid s).interruptionListeners = s.interruptionListeners ∧
        (removeVolumeListener rid s).routeChangeListeners = s.routeChangeListeners) := by
  obtain ⟨h1, h2, h3, h4, h5, h6, h7, h8⟩ := reachable_inv h
  have nd3 : (s.interruptionListeners.map Listener.id).Nodup := h3.imp Nat.ne_of_lt
  have nd4 : (s.routeChangeListeners.map Listener.id).Nodup := h4.imp Nat.ne_of_lt
  have nd5 : (s.volumeListeners.map Listener.id).Nodup := h5.imp Nat.ne_of_lt
  refine ⟨?_, ?_, ?_, ?_, ?_, ?_⟩
  · intro hm
    unfold removeInterruptionListener
    rw [filter_ne_of_not_mem _ _ hm]
  · intro hm
    unfold removeRouteChangeListener
    rw [filter_ne_of_not_mem _ _ hm]
  · intro hm
    unfold removeVolumeListener
    dsimp only
    rw [filter_ne_of_not_mem _ _ hm]
    by_cases hvl : s.volumeListeners = []
    · have hobs : s.volumeObservation = false := by
        rcases Bool.eq_false_or_eq_true s.volumeObservation with hb | hb
        · exact absurd hvl (h2.mp hb)
        · exact hb
      rw [if_pos (by simp [hvl])]
      rw [← hobs]
    · rw [if_neg (by simpa [List.isEmpty_iff] using hvl)]
  · intro hm
    refine ⟨filter_ne_length _ _ nd3 hm, ?_, ?_, rfl, rfl⟩
    · intro l hl hne
      exact List.mem_filter.mpr ⟨hl, by simp [hne]⟩
    · intro l hl
      have := (List.mem_filter.mp hl).2
      simpa using this
  · intro hm
    refine ⟨filter_ne_length _ _ nd4 hm, ?_, ?_, rfl, rfl⟩
    · intro l hl hne
      exact List.mem_filter.mpr ⟨hl, by simp [hne]⟩
    · intro l hl
      have := (List.mem_filter.mp hl).2
      simpa using this
  · intro hm
    rw [removeVolumeListener_volumeListeners, removeVolumeListener_interruption,
      removeVolumeListener_routeChange]
    refine ⟨filter_ne_length _ _ nd5 hm, ?_, ?_, rfl, rfl⟩
    · intro l hl hne
      exact List.mem_filter.mpr ⟨hl, by simp [hne]⟩
    · intro l hl
      have := (List.mem_filter.mp hl).2
      simpa using this

/-- Witness for C10: removing an unregistered id from the initial state
on each channel is a no-op. -/
theorem remove_listener_exact_witness :
    Reachable initState ∧
      removeInterruptionListener 7 initState = initState ∧
      removeRouteChangeListener 7 initState = initState ∧
      removeVolumeListener 7 initState = initState :=
  ⟨Reachable.init,
    (remove_listener_exact initState Reachable.init 7).1 (by simp [initState]),
    (remove_listener_exact initState Reachable.init 7).2.1 (by simp [initState]),
    (remove_listener_exact initState Reachable.init 7).2.2.1 (by simp [initState])⟩

end AudioMgr
